import Mathlib

/-!
Verification development for the `vcf_parser` repository.

The Python sources embedded here are:
  * `vcf_parser/genotype.py` (`Genotype.__init__`),
  * `vcf_parser/parser.py` (`VCFParser.__iter__`),
  * `vcf_parser/utils/split_variants.py` (`split_variants`).

Helper modules of the repository that are not available (`format_variant`,
`split_genotype`, `build_vep_string`, the header parser) are modelled from the
specification and marked as such in their doc comments.

Conventions of the embedding:
  * Python strings are Lean `String`s; all character-level operations go
    through `String.data` with structural list functions, so every definition
    evaluates inside the kernel.
  * fallible Python code is embedded in `Except PyErr`;
  * a generator is embedded as the list of values it yields before
    terminating, paired with the exception, if any, that ends the iteration.
-/

/-- The Python exceptions that the embedded code can raise. -/
inductive PyErr where
  | valueError (msg : String)
  | indexError
  | keyError (key : String)
  | nameError (name : String)
  | structuralError (msg : String)
  deriving Repr, DecidableEq

/-- `true` on `.ok`, `false` on `.error`: whether a Python computation
completed without raising. -/
def exOk {α : Type} : Except PyErr α → Bool
  | .ok _ => true
  | .error _ => false

/-- Splitting accumulator: Python `str.split(sep)` for a one-character
separator, collecting the current chunk in reverse in `acc`. -/
def splitCharAux (sep : Char) : List Char → List Char → List String
  | [], acc => [String.mk acc.reverse]
  | c :: rest, acc =>
      if c = sep then String.mk acc.reverse :: splitCharAux sep rest []
      else splitCharAux sep rest (c :: acc)

/-- Python `s.split(sep)` for a one-character separator: like Python, the
result is never empty and `"".split(sep) == [""]`. -/
def pySplit (s : String) (sep : Char) : List String :=
  splitCharAux sep s.data []

/-- Python `sep.join(parts)`. -/
def pyJoin (sep : String) : List String → String
  | [] => ""
  | [s] => s
  | s :: rest => s ++ sep ++ pyJoin sep rest

/-- Python `s.rstrip()`: drop trailing whitespace. -/
def pyRstrip (s : String) : String :=
  String.mk (s.data.reverse.dropWhile Char.isWhitespace).reverse

/-- Python `c in s` for a character. -/
def pyContains (s : String) (c : Char) : Bool :=
  s.data.contains c

/-- Decimal digits to a natural number. -/
def digitsToNat (ds : List Char) : Nat :=
  ds.foldl (fun a c => a * 10 + (c.toNat - 48)) 0

/-- Python `int(s)` on a string: optional surrounding whitespace, an optional
sign, then a nonempty run of decimal digits (underscore digit-grouping, which
none of the inputs handled by this code uses, is omitted).  `none` models the
`ValueError` that `int` raises otherwise. -/
def pyInt? (s : String) : Option Int :=
  let t := ((s.data.dropWhile Char.isWhitespace).reverse.dropWhile
      Char.isWhitespace).reverse
  let signAndDigits : Int × List Char :=
    match t with
    | '-' :: r => (-1, r)
    | '+' :: r => (1, r)
    | r => (1, r)
  if signAndDigits.2 ≠ [] ∧ signAndDigits.2.all Char.isDigit then
    some (signAndDigits.1 * (digitsToNat signAndDigits.2 : Int))
  else none

/-- Recognizer for the exponent suffix of a Python float literal: empty, or
`e`/`E`, an optional sign and a nonempty digit run. -/
def pyFloatExpOk (cs : List Char) : Bool :=
  match cs with
  | [] => true
  | e :: rest =>
      if e = 'e' ∨ e = 'E' then
        let ds := match rest with
          | '+' :: r => r
          | '-' :: r => r
          | r => r
        decide (ds ≠ []) && ds.all Char.isDigit
      else false

/-- Recognizer for the mantissa (and optional exponent) of a Python float
literal: `digits`, `digits.digits?`, `.digits`, with at least one digit. -/
def pyFloatMantOk (cs : List Char) : Bool :=
  let intPart := cs.takeWhile Char.isDigit
  let rest := cs.dropWhile Char.isDigit
  match rest with
  | [] => decide (intPart ≠ [])
  | '.' :: r2 =>
      let frac := r2.takeWhile Char.isDigit
      let r3 := r2.dropWhile Char.isDigit
      (decide (intPart ≠ []) || decide (frac ≠ [])) && pyFloatExpOk r3
  | _ => decide (intPart ≠ []) && pyFloatExpOk rest

/-- Whether Python `float(s)` succeeds: optional surrounding whitespace, an
optional sign, then a decimal mantissa with optional exponent, or one of the
special words `inf`, `infinity`, `nan` (case-insensitive). -/
def pyFloatOk (s : String) : Bool :=
  let t := ((s.data.dropWhile Char.isWhitespace).reverse.dropWhile
      Char.isWhitespace).reverse
  let body := match t with
    | '+' :: r => r
    | '-' :: r => r
    | r => r
  let lower := body.map Char.toLower
  if lower = ['i', 'n', 'f'] ∨ lower = ['i', 'n', 'f', 'i', 'n', 'i', 't', 'y']
      ∨ lower = ['n', 'a', 'n'] then
    true
  else
    pyFloatMantOk body

/-- A Python attribute that holds either a raw string token or a converted
integer (the depth attributes of `Genotype` are dynamically typed). -/
inductive StrOrInt where
  | str (s : String)
  | int (i : Int)
  deriving Repr, DecidableEq

/-- The zygosity flag block computed by `Genotype.__init__`
(fields: genotyped, homo_ref, homo_alt, heterozygote, has_variant). -/
structure ZygFlags where
  genotyped : Bool
  homo_ref : Bool
  homo_alt : Bool
  heterozygote : Bool
  has_variant : Bool
  deriving Repr, DecidableEq

/-- genotype.py lines 60-66: allele extraction.  A token shorter than 3
characters is a single-allele call (`allele_1 = GT`, `allele_2 = "."`);
otherwise `allele_1` is the first and `allele_2` the last character
(both exist because the length is at least 3, so the defaults are dead). -/
def gtAlleles (GT : String) : String × String :=
  if GT.length < 3 then (GT, ".")
  else (String.singleton (GT.data.headD ' '), String.singleton (GT.data.getLastD ' '))

/-- genotype.py lines 70-79: the zygosity flags as a function of the canonical
genotype string and the two alleles. -/
def gtZygosity (genotype a1 a2 : String) : ZygFlags :=
  if genotype = "./." then ⟨false, false, false, false, false⟩
  else if genotype = "0/0" then ⟨true, true, false, false, false⟩
  else if a1 = a2 then ⟨true, false, true, false, true⟩
  else ⟨true, false, false, true, true⟩

/-- genotype.py lines 85-86: `if AD[0].isdigit(): self.ref_depth =
int(AD.split(',')[0])`, leaving the initial `AD[0]` otherwise (the split of a
nonempty string always has a first element); a failed `int` conversion
raises `ValueError`.  `str.isdigit` is modelled for ASCII digits here and
below. -/
def adRefConv (AD : String) : Except PyErr StrOrInt :=
  if (AD.data.headD ' ').isDigit then
    match pyInt? ((pySplit AD ',').headD "") with
    | some n => .ok (.int n)
    | none => .error (.valueError "invalid literal for int")
  else .ok (.str (String.singleton (AD.data.headD ' ')))

/-- genotype.py lines 87-88: `if AD[2].isdigit(): self.alt_depth =
int(AD.split(',')[1])`, leaving the initial `AD[-1]` otherwise;
`AD.split(',')[1]` raises `IndexError` when no second comma-element
exists. -/
def adAltConv (AD : String) : Except PyErr StrOrInt :=
  if ((AD.data.get? 2).getD ' ').isDigit then
    match (pySplit AD ',').get? 1 with
    | none => .error .indexError
    | some p =>
        match pyInt? p with
        | some n => .ok (.int n)
        | none => .error (.valueError "invalid literal for int")
  else .ok (.str (String.singleton (AD.data.getLastD ' ')))

/-- genotype.py lines 81-89: the depth fields.  `self.ref_depth = AD[0]` and
`self.alt_depth = AD[-1]` take single characters (raising `IndexError` on an
empty token); when `len(AD) > 2` the two guarded conversions above run in
order, either of which can raise. -/
def adStage (AD : String) : Except PyErr (StrOrInt × StrOrInt) :=
  if AD.data = [] then .error .indexError
  else if 2 < AD.length then
    match adRefConv AD with
    | .error e => .error e
    | .ok rd' =>
        match adAltConv AD with
        | .error e => .error e
        | .ok ad' => .ok (rd', ad')
  else
    .ok (.str (String.singleton (AD.data.headD ' ')),
         .str (String.singleton (AD.data.getLastD ' ')))

/-- genotype.py line 99: `[int(score) for score in PL.split(',')]`, which
raises `ValueError` at the first non-integer element. -/
def plParse : List String → Except PyErr (List Int)
  | [] => .ok []
  | s :: rest =>
      match pyInt? s with
      | none => .error (.valueError "invalid literal for int")
      | some n =>
          match plParse rest with
          | .error e => .error e
          | .ok ns => .ok (n :: ns)

/-- genotype.py lines 97-99: `phred_likelihoods` is `[]` unless `PL` is truthy
(present and nonempty), in which case the comma-elements are `int`-converted
with no exception handler. -/
def plStage (PL : Option String) : Except PyErr (List Int) :=
  match PL with
  | none => .ok []
  | some pl => if pl = "" then .ok [] else plParse (pySplit pl ',')

/-- The attributes set by `Genotype.__init__` (genotype.py).
`depth_of_coverage` / `genotype_quality` are unset when their `int` / `float`
conversion fails (the `try`/`except ValueError: pass` blocks); only parse
success of `genotype_quality` is observable to the embedded claims, so the
raw token is stored. -/
structure Genotype where
  heterozygote : Bool
  homo_alt : Bool
  homo_ref : Bool
  has_variant : Bool
  genotyped : Bool
  phased : Bool
  allele_1 : String
  allele_2 : String
  genotype : String
  ref_depth : StrOrInt
  alt_depth : StrOrInt
  depth_of_coverage : Option Int
  genotype_quality : Option String
  phred_likelihoods : List Int
  deriving Repr, DecidableEq

/-- `Genotype.__init__(GT, AD, DP, GQ, PL)` (genotype.py lines 46-100), with
the Python default arguments `GT='./.', AD='.,.', DP='0', GQ='0', PL=None`
supplied by callers.  Returns the constructed object or the exception the
constructor raises. -/
def genotypeInit (GT AD DP GQ : String) (PL : Option String) :
    Except PyErr Genotype :=
  match adStage AD with
  | .error e => .error e
  | .ok rdad =>
      match plStage PL with
      | .error e => .error e
      | .ok pls =>
          .ok { heterozygote :=
                  (gtZygosity ((gtAlleles GT).1 ++ "/" ++ (gtAlleles GT).2)
                    (gtAlleles GT).1 (gtAlleles GT).2).heterozygote
              , homo_alt :=
                  (gtZygosity ((gtAlleles GT).1 ++ "/" ++ (gtAlleles GT).2)
                    (gtAlleles GT).1 (gtAlleles GT).2).homo_alt
              , homo_ref :=
                  (gtZygosity ((gtAlleles GT).1 ++ "/" ++ (gtAlleles GT).2)
                    (gtAlleles GT).1 (gtAlleles GT).2).homo_ref
              , has_variant :=
                  (gtZygosity ((gtAlleles GT).1 ++ "/" ++ (gtAlleles GT).2)
                    (gtAlleles GT).1 (gtAlleles GT).2).has_variant
              , genotyped :=
                  (gtZygosity ((gtAlleles GT).1 ++ "/" ++ (gtAlleles GT).2)
                    (gtAlleles GT).1 (gtAlleles GT).2).genotyped
              , phased := pyContains GT '|'
              , allele_1 := (gtAlleles GT).1
              , allele_2 := (gtAlleles GT).2
              , genotype := (gtAlleles GT).1 ++ "/" ++ (gtAlleles GT).2
              , ref_depth := rdad.1
              , alt_depth := rdad.2
              , depth_of_coverage := pyInt? DP
              , genotype_quality := if pyFloatOk GQ then some GQ else none
              , phred_likelihoods := pls }

/-- An entry of the third-party (VEP) per-allele annotation block: one
sub-record, a key → value mapping in declared order. -/
abbrev VepEntry := List (String × String)

/-- A variant dictionary as produced by the record decoder and consumed and
produced by `split_variants`: the fixed columns, the raw `INFO` string, the
parsed `info_dict` (insertion-ordered key → values), the per-allele
annotation block `vep_info`, the `genotypes` map (individual → call),
the raw per-individual sample columns (`variant_dict[individual]`), and the
`variant_id` key, present only on split records. `FORMAT` is present only
when the source dictionary has that key. -/
structure VariantDict where
  CHROM : String
  POS : String
  ID : String
  REF : String
  ALT : String
  QUAL : String
  FILTER : String
  FORMAT : Option String
  INFO : String
  info_dict : List (String × List String)
  vep_info : List (String × List VepEntry)
  genotypes : List (String × Genotype)
  sample_cols : List (String × String)
  variant_id : Option String
  deriving Repr, DecidableEq

/-- The declared `Number` of an annotation key in the header schema: an
integer or one of the letter tags `A`, `R`, `G`, `.`. -/
inductive NumberVal where
  | int (n : Int)
  | str (s : String)
  deriving Repr, DecidableEq

/-- The slice of the header-parser state (`metadata`) that the embedded code
reads: `extra_info[key]['Number']`, the declared individuals, and the declared
annotation sub-field names (`vep_columns`). -/
structure Metadata where
  extra_info : List (String × NumberVal)
  individuals : List String
  vep_columns : List String
  deriving Repr, DecidableEq

/-- First match in an insertion-ordered dictionary, i.e. Python `d[k]`
returning `none` for a `KeyError`. -/
def lookupStr {α : Type} : List (String × α) → String → Option α
  | [], _ => none
  | (k, v) :: rest, key => if k = key then some v else lookupStr rest key

/-- Modelled from the spec: `build_vep_string`
(`vcf_parser/utils/build_vep.py` is not under `src/`).  §4.3 step 4:
re-encode this allele's annotation sub-records into a single rebuilt
annotation value; per §4.2/§6 the sub-fields of an entry are `|`-delimited
and entries are comma-separated. -/
def build_vep_string (entries : List VepEntry) : String :=
  pyJoin "," (entries.map (fun e => pyJoin "|" (e.map (fun kv => kv.2))))

/-- Modelled from the spec: `split_genotype`
(`vcf_parser/utils/split_genotype.py` is not under `src/`).  §4.3 step 5:
re-encode the sample's original multiallelic genotype token into a biallelic
token relative to alternative-allele index `i`: an allele index equal to
`i+1` maps to `1`, index `0` maps to `0`, any other nonzero index maps to
`0`; separators and the non-genotype sub-fields of the colon-joined sample
column are kept as given (single-character allele indices, as in §4.1). -/
def split_genotype (sampleToken : String) (format : String) (i : Nat) :
    String :=
  let remap : Char → Char := fun c =>
    if c.isDigit then (if c.toNat - 48 = i + 1 then '1' else '0') else c
  let parts := pySplit sampleToken ':'
  let keys := pySplit format ':'
  let newParts := (List.zip keys parts).map
    (fun kv => if kv.1 = "GT" then String.mk (kv.2.data.map remap) else kv.2)
  -- sample sub-fields beyond the FORMAT layout are kept unchanged
  pyJoin ":" (newParts ++ parts.drop keys.length)

/-- split_variants.py line 103, `variant['INFO'] = build_info_string(info_dict)`:
the name `build_info_string` is neither defined in the module nor among its
imports (line 12 imports only `build_vep_string` and `split_genotype`), so
evaluating it raises `NameError` before the record can be yielded. -/
def build_info_string_call (_info_dict : List (String × List String)) :
    Except PyErr String :=
  .error (.nameError "build_info_string")

/-- split_variants.py lines 57-101: one iteration of the INFO-redistribution
loop, for key `info` with original values `values`, while splitting out the
alternative allele `alternative` at zero-based index `i`.  The accumulator is
the pair of the new `info_dict` and `vep_dict` under construction.
`number_of_values` is initialised to `1` before the loop and only ever
reassigned under `if metadata:`, so its value at each use is the schema
lookup when `metadata` is given and `1` otherwise; on a key missing from
`metadata.extra_info`, the `except KeyError:` handler evaluates
`logger.error(...)`, and `logger` is never assigned in the module, so the
handler raises `NameError` (masking the `KeyError` it meant to re-raise). -/
def splitInfoKey (vd : VariantDict) (md : Option Metadata)
    (alternative : String) (i : Nat)
    (acc : List (String × List String) × List (String × List VepEntry))
    (info : String) (values : List String) :
    Except PyErr (List (String × List String) × List (String × List VepEntry)) :=
  if info = "" then .ok (acc.1 ++ [(info, [])], acc.2)
  else
    match (match md with
           | some m =>
               match lookupStr m.extra_info info with
               | some nv => Except.ok nv
               | none => Except.error (PyErr.nameError "logger")
           | none => Except.ok (NumberVal.int 1)) with
    | .error e => .error e
    | .ok number_of_values =>
        if info = "CSQ" then
          match lookupStr vd.vep_info alternative with
          | some entries =>
              .ok (acc.1 ++ [("CSQ", [build_vep_string entries])],
                   acc.2 ++ [(alternative, entries)])
          | none => .ok acc
        else if number_of_values = .str "A" then
          match values.get? i with
          | some v => .ok (acc.1 ++ [(info, [v])], acc.2)
          | none =>
              -- except IndexError: info_dict[info] = [values[0]]; a second
              -- IndexError inside the handler would propagate
              match values.get? 0 with
              | some v0 => .ok (acc.1 ++ [(info, [v0])], acc.2)
              | none => .error .indexError
        else if number_of_values = .str "R" then
          -- reference_value = values[0] stands outside the try block
          match values.get? 0 with
          | none => .error .indexError
          | some rv =>
              match values.get? (i + 1) with
              | some av => .ok (acc.1 ++ [(info, [rv, av])], acc.2)
              | none => .ok acc
        else .ok (acc.1 ++ [(info, values)], acc.2)

/-- split_variants.py lines 57-101: the INFO loop over the keys of the
original `info_dict`, in insertion order. -/
def splitInfoLoop (vd : VariantDict) (md : Option Metadata)
    (alternative : String) (i : Nat) :
    List (String × List String) →
    List (String × List String) × List (String × List VepEntry) →
    Except PyErr (List (String × List String) × List (String × List VepEntry))
  | [], acc => .ok acc
  | (info, values) :: rest, acc =>
      match splitInfoKey vd md alternative i acc info values with
      | .error e => .error e
      | .ok acc' => splitInfoLoop vd md alternative i rest acc'

/-- split_variants.py lines 105-113: the genotype re-derivation loop.  For
each individual, `variant_dict[individual]` is re-encoded with
`split_genotype` relative to allele index `i` using `variant['FORMAT']`
(a `KeyError` when the source record has no FORMAT), and the re-encoded
column is stored; the following statement then evaluates
`Genotype(**dict(zip(gt_format.split(':'), ...)))`, and neither `Genotype`
(not imported in this module) nor `gt_format` (never assigned) is a defined
name, so it raises `NameError` for `Genotype`, the callable being evaluated
first. -/
def splitGenotypeLoop (vd : VariantDict) (i : Nat) :
    List (String × Genotype) →
    List (String × String) × List (String × Genotype) →
    Except PyErr (List (String × String) × List (String × Genotype))
  | [], acc => .ok acc
  | (individual, _) :: _, _ =>
      match lookupStr vd.sample_cols individual with
      | none => .error (.keyError individual)
      | some tok =>
          match vd.FORMAT with
          | none => .error (.keyError "FORMAT")
          | some fmt =>
              let _new_genotype := split_genotype tok fmt i
              .error (.nameError "Genotype")

/-- split_variants.py lines 33-123: the body of the loop over
`enumerate(alternatives)` for the alternative allele `alternative` at
zero-based index `i`: build the new variant dictionary, or raise. -/
def splitOne (vd : VariantDict) (md : Option Metadata)
    (alternative : String) (i : Nat) : Except PyErr VariantDict :=
  match splitInfoLoop vd md alternative i vd.info_dict ([], []) with
  | .error e => .error e
  | .ok acc =>
      match build_info_string_call acc.1 with
      | .error e => .error e
      | .ok INFO' =>
          match splitGenotypeLoop vd i vd.genotypes ([], []) with
          | .error e => .error e
          | .ok gacc =>
              .ok { CHROM := vd.CHROM
                  , POS := vd.POS
                    -- variant_dict['ID'].split(';')[i], reusing the whole ID
                    -- on IndexError
                  , ID := (pySplit vd.ID ';').getD i vd.ID
                  , REF := vd.REF
                  , ALT := alternative
                  , QUAL := vd.QUAL
                  , FILTER := vd.FILTER
                  , FORMAT := vd.FORMAT
                  , INFO := INFO'
                  , info_dict := acc.1
                  , vep_info := acc.2
                  , genotypes := gacc.2
                  , sample_cols := gacc.1
                  , variant_id :=
                      some (pyJoin "_" [vd.CHROM, vd.POS, vd.REF, alternative]) }

/-- The generator loop of `split_variants`: process the comma-separated
alternatives in order, collecting the yielded records; an exception ends the
iteration after the records already yielded. -/
def splitVariantsGo (vd : VariantDict) (md : Option Metadata) :
    List String → Nat → List VariantDict × Option PyErr
  | [], _ => ([], none)
  | alternative :: rest, i =>
      match splitOne vd md alternative i with
      | .error e => ([], some e)
      | .ok v =>
          let r := splitVariantsGo vd md rest (i + 1)
          (v :: r.1, r.2)

/-- `split_variants(variant_dict, metadata)` (split_variants.py lines 14-123)
run to exhaustion: the records it yields and the exception, if any, that ends
the iteration. -/
def splitVariantsRun (vd : VariantDict) (md : Option Metadata) :
    List VariantDict × Option PyErr :=
  splitVariantsGo vd md (pySplit vd.ALT ',') 0

/-- Modelled from the spec: parsing one `;`-separated INFO entry
(§4.2, part of the missing `format_variant`): `key` alone maps to an empty
value list, `key=v1,v2,...` to the comma-separated values. -/
def parseInfoEntry (entry : String) : String × List String :=
  match pySplit entry '=' with
  | [k] => (k, [])
  | k :: vs => (k, pySplit (pyJoin "=" vs) ',')
  | [] => (entry, [])

/-- Modelled from the spec: decomposing the reserved per-allele annotation
value (§4.2, part of the missing `format_variant`): entries are
comma-separated, each entry `|`-delimited into sub-fields aligned with the
schema's declared names, grouped by the allele named in the designated
`Allele` sub-field. -/
def parseVepBlock (columns : List String) (raw : String) :
    List (String × List VepEntry) :=
  let entries := (pySplit raw ',').map
    (fun e => List.zip columns (pySplit e '|'))
  let alleles := (entries.map
    (fun e => (lookupStr e "Allele").getD "")).dedup
  alleles.map (fun a =>
    (a, entries.filter (fun e => (lookupStr e "Allele").getD "" = a)))

/-- Modelled from the spec: decoding one sample column (§4.2 step 4 with the
§4.1 contract, part of the missing `format_variant`): the colon-separated
sub-fields are aligned with the FORMAT layout, and the decoder of §4.1 is
run with its defaults (`GT='./.', AD='.,.', DP='0', GQ='0', PL=None`, the
default arguments of `Genotype.__init__`) for sub-fields absent from
FORMAT. -/
def decodeSample (format : String) (col : String) : Except PyErr Genotype :=
  let pairs := List.zip (pySplit format ':') (pySplit col ':')
  genotypeInit ((lookupStr pairs "GT").getD "./.")
    ((lookupStr pairs "AD").getD ".,.")
    ((lookupStr pairs "DP").getD "0")
    ((lookupStr pairs "GQ").getD "0")
    (lookupStr pairs "PL")

/-- Modelled from the spec: the genotype map of `format_variant` (§4.2):
one decoded call per declared individual, aligned 1:1 with the sample
columns. -/
def decodeSamples (format : String) :
    List String → List String →
    Except PyErr (List (String × Genotype) × List (String × String))
  | [], _ => .ok ([], [])
  | _ :: _, [] => .ok ([], [])
  | ind :: inds, col :: cols =>
      match decodeSample format col with
      | .error e => .error e
      | .ok g =>
          match decodeSamples format inds cols with
          | .error e => .error e
          | .ok (gs, cs) => .ok ((ind, g) :: gs, (ind, col) :: cs)

/-- Modelled from the spec: `format_variant`
(`vcf_parser/utils/format_variant.py`, the VariantRecord decoder of §4.2, is
not under `src/`).  The line is split on tabs; fewer than 8 columns is a
StructuralError; the first eight columns map positionally to the fixed
fields, FORMAT is the ninth column when present, the INFO column is parsed
into the key → values mapping, the reserved `CSQ` key is decomposed into the
per-allele block when the schema declares sub-field names, and each
remaining column is one sample's raw genotype token, decoded with §4.1
through the FORMAT layout. -/
def format_variant (line : String) (md : Option Metadata) :
    Except PyErr VariantDict :=
  let cols := pySplit line '\t'
  if cols.length < 8 then
    .error (.structuralError "fewer than 8 columns in a data line")
  else
    let chrom := cols.getD 0 ""
    let pos := cols.getD 1 ""
    let id := cols.getD 2 ""
    let ref := cols.getD 3 ""
    let alt := cols.getD 4 ""
    let qual := cols.getD 5 ""
    let filter := cols.getD 6 ""
    let infoStr := cols.getD 7 ""
    let format? := cols.get? 8
    let info_dict := (pySplit infoStr ';').map parseInfoEntry
    let vepCols := match md with
      | some m => m.vep_columns
      | none => []
    let vep_info :=
      if vepCols ≠ [] then
        match lookupStr info_dict "CSQ" with
        | some vals => parseVepBlock vepCols (pyJoin "," vals)
        | none => []
      else []
    let individuals := match md with
      | some m => m.individuals
      | none => []
    match decodeSamples (format?.getD "") individuals (cols.drop 9) with
    | .error e => .error e
    | .ok gscs =>
        .ok { CHROM := chrom, POS := pos, ID := id, REF := ref, ALT := alt
            , QUAL := qual, FILTER := filter, FORMAT := format?
            , INFO := infoStr, info_dict := info_dict, vep_info := vep_info
            , genotypes := gscs.1, sample_cols := gscs.2
            , variant_id := none }

/-- parser.py lines 163-175: the per-line body of `VCFParser.__iter__` once
the `beginning` block is behind: a line with at least 8 tab-separated
columns is decoded with `format_variant` and, when `split_variants` is set
and the ALT column holds more than one comma-separated allele, split with
`split_variants`; a shorter line falls through silently, appending nothing
to `variants`.  Returns the records yielded for the line and the exception,
if any. -/
def processLine (line : String) (md : Option Metadata) (splitFlag : Bool) :
    List VariantDict × Option PyErr :=
  if 8 ≤ (pySplit line '\t').length then
    match format_variant line md with
    | .error e => ([], some e)
    | .ok variant =>
        if ¬(splitFlag ∧ 1 < (pySplit variant.ALT ',').length) then
          ([variant], none)
        else splitVariantsRun variant md
  else ([], none)

/-- parser.py lines 141-175: `VCFParser.__iter__` over the remaining input
lines.  After `__init__`, `self.beginning` is `True`; the first loop
iteration then evaluates `format_variant(next_line, ...)`, and `next_line`
is not a defined name inside `__iter__` (the attribute is
`self.next_line`), so the generator raises `NameError` before yielding
anything and before `self.beginning` is cleared.  With `beginning` false the
body reduces to `processLine` on the rstripped line. -/
def iterLines (beginning : Bool) (md : Option Metadata) (splitFlag : Bool) :
    List String → List VariantDict × Option PyErr
  | [] => ([], none)
  | line :: rest =>
      let stripped := pyRstrip line
      if beginning then ([], some (.nameError "next_line"))
      else
        match processLine stripped md splitFlag with
        | (vs, some e) => (vs, some e)
        | (vs, none) =>
            let r := iterLines false md splitFlag rest
            (vs ++ r.1, r.2)

/-! ### Properties of the genotype decoder -/

/-- Inversion of a successful `Genotype.__init__`: every attribute of the
constructed object in terms of the stages of the constructor. -/
theorem genotypeInit_fields {GT AD DP GQ : String} {PL : Option String}
    {g : Genotype} (h : genotypeInit GT AD DP GQ PL = .ok g) :
    adStage AD = .ok (g.ref_depth, g.alt_depth) ∧
    plStage PL = .ok g.phred_likelihoods ∧
    g.allele_1 = (gtAlleles GT).1 ∧
    g.allele_2 = (gtAlleles GT).2 ∧
    g.genotype = (gtAlleles GT).1 ++ "/" ++ (gtAlleles GT).2 ∧
    ZygFlags.mk g.genotyped g.homo_ref g.homo_alt g.heterozygote
        g.has_variant =
      gtZygosity ((gtAlleles GT).1 ++ "/" ++ (gtAlleles GT).2)
        (gtAlleles GT).1 (gtAlleles GT).2 ∧
    g.depth_of_coverage = pyInt? DP ∧
    g.genotype_quality = (if pyFloatOk GQ then some GQ else none) ∧
    g.phased = pyContains GT '|' := by
  unfold genotypeInit at h
  cases hA : adStage AD with
  | error e => rw [hA] at h; cases h
  | ok rdad =>
      rw [hA] at h
      cases hP : plStage PL with
      | error e => rw [hP] at h; cases h
      | ok pls =>
          rw [hP] at h
          obtain ⟨rd, ad⟩ := rdad
          cases h
          exact ⟨rfl, rfl, rfl, rfl, rfl, rfl, rfl, rfl, rfl⟩

/-- C1: for every decoded GenotypeCall — any genotype token together with any
depth, quality and likelihood sub-field tokens for which the constructor
completes — exactly one of the flags `homo_ref`, `homo_alt`, `heterozygote`
is true, or all three are false and `genotyped` is false; and `has_variant`
is true if and only if `homo_alt` or `heterozygote` is true. -/
theorem c1_zygosity_flags_exclusive
    (GT AD DP GQ : String) (PL : Option String) (g : Genotype)
    (h : genotypeInit GT AD DP GQ PL = .ok g) :
    ((g.homo_ref = true ∧ g.homo_alt = false ∧ g.heterozygote = false) ∨
     (g.homo_ref = false ∧ g.homo_alt = true ∧ g.heterozygote = false) ∨
     (g.homo_ref = false ∧ g.homo_alt = false ∧ g.heterozygote = true) ∨
     (g.homo_ref = false ∧ g.homo_alt = false ∧ g.heterozygote = false ∧
       g.genotyped = false)) ∧
    g.has_variant = (g.homo_alt || g.heterozygote) := by
  obtain ⟨-, -, -, -, -, hz, -, -, -⟩ := genotypeInit_fields h
  unfold gtZygosity at hz
  split at hz <;> [skip; split at hz] <;> [skip; skip; split at hz] <;>
    (simp only [ZygFlags.mk.injEq] at hz;
     obtain ⟨e1, e2, e3, e4, e5⟩ := hz; simp [e1, e2, e3, e4, e5])

/-- The object constructed by `Genotype('0/1', '.,.', '0', '0', None)`. -/
def het01Call : Genotype :=
  { heterozygote := true, homo_alt := false, homo_ref := false
  , has_variant := true, genotyped := true, phased := false
  , allele_1 := "0", allele_2 := "1", genotype := "0/1"
  , ref_depth := .str ".", alt_depth := .str "."
  , depth_of_coverage := some 0, genotype_quality := some "0"
  , phred_likelihoods := [] }

/-- C1 witness: the theorem applied to the concrete decode of `"0/1"` with
the decoder's default sub-field tokens. -/
theorem c1_zygosity_flags_exclusive_witness :
    genotypeInit "0/1" ".,." "0" "0" none = .ok het01Call ∧
    (((het01Call.homo_ref = true ∧ het01Call.homo_alt = false ∧
        het01Call.heterozygote = false) ∨
      (het01Call.homo_ref = false ∧ het01Call.homo_alt = true ∧
        het01Call.heterozygote = false) ∨
      (het01Call.homo_ref = false ∧ het01Call.homo_alt = false ∧
        het01Call.heterozygote = true) ∨
      (het01Call.homo_ref = false ∧ het01Call.homo_alt = false ∧
        het01Call.heterozygote = false ∧ het01Call.genotyped = false)) ∧
     het01Call.has_variant = (het01Call.homo_alt || het01Call.heterozygote)) :=
  ⟨rfl, c1_zygosity_flags_exclusive "0/1" ".,." "0" "0" none het01Call rfl⟩

/-- C10: every genotype token shorter than 3 characters other than the exact
token `"."` is classified heterozygote with `has_variant` — the canonical
genotype is `GT + "/" + "."`, which is neither `"./."` nor `"0/0"` and whose
alleles differ, so the decoder takes the heterozygote branch; in particular
this covers the reference hemizygous token `"0"`. -/
theorem c10_short_token_heterozygote
    (GT AD DP GQ : String) (PL : Option String) (g : Genotype)
    (hlen : GT.length < 3) (hne : GT ≠ ".")
    (h : genotypeInit GT AD DP GQ PL = .ok g) :
    g.heterozygote = true ∧ g.has_variant = true ∧
    g.genotype = GT ++ "/" ++ "." ∧ g.homo_ref = false := by
  obtain ⟨-, -, -, -, hgen, hz, -, -, -⟩ := genotypeInit_fields h
  have hga : gtAlleles GT = (GT, ".") := by unfold gtAlleles; rw [if_pos hlen]
  rw [hga] at hgen hz
  have h1 : GT ++ "/" ++ "." ≠ "./." := by
    intro heq
    have hlen1 : GT.data.length = 1 := by
      have h3 := congrArg String.length heq
      simp only [String.length_append] at h3
      have hL : GT.length = GT.data.length := rfl
      have e1 : ("/" : String).length = 1 := rfl
      have e2 : ("." : String).length = 1 := rfl
      have e3 : ("./." : String).length = 3 := rfl
      rw [hL, e1, e2, e3] at h3
      omega
    obtain ⟨c, hc⟩ := List.length_eq_one.mp hlen1
    simp [String.ext_iff, String.data_append, hc] at heq
    apply hne
    simp [String.ext_iff, hc, heq]
  have h2 : GT ++ "/" ++ "." ≠ "0/0" := by
    intro heq
    have hlen1 : GT.data.length = 1 := by
      have h3 := congrArg String.length heq
      simp only [String.length_append] at h3
      have hL : GT.length = GT.data.length := rfl
      have e1 : ("/" : String).length = 1 := rfl
      have e2 : ("." : String).length = 1 := rfl
      have e3 : ("0/0" : String).length = 3 := rfl
      rw [hL, e1, e2, e3] at h3
      omega
    obtain ⟨c, hc⟩ := List.length_eq_one.mp hlen1
    simp [String.ext_iff, String.data_append, hc] at heq
  unfold gtZygosity at hz
  rw [if_neg h1, if_neg h2, if_neg hne] at hz
  simp only [ZygFlags.mk.injEq] at hz
  obtain ⟨-, e2, -, e4, e5⟩ := hz
  exact ⟨e4, e5, hgen, e2⟩

/-- The object constructed by `Genotype('0', '.,.', '0', '0', None)`: the
reference hemizygous token rendered as `0/.` and flagged heterozygote. -/
def hemiRefCall : Genotype :=
  { heterozygote := true, homo_alt := false, homo_ref := false
  , has_variant := true, genotyped := true, phased := false
  , allele_1 := "0", allele_2 := ".", genotype := "0/."
  , ref_depth := .str ".", alt_depth := .str "."
  , depth_of_coverage := some 0, genotype_quality := some "0"
  , phred_likelihoods := [] }

/-- C10 witness: the theorem applied to the hemizygous reference token `"0"`,
whose canonical genotype is `"0/."`. -/
theorem c10_short_token_heterozygote_witness :
    ("0" : String).length < 3 ∧ ("0" : String) ≠ "." ∧
    genotypeInit "0" ".,." "0" "0" none = .ok hemiRefCall ∧
    hemiRefCall.genotype = "0/." ∧
    (hemiRefCall.heterozygote = true ∧ hemiRefCall.has_variant = true ∧
     hemiRefCall.genotype = "0" ++ "/" ++ "." ∧ hemiRefCall.homo_ref = false) :=
  ⟨by decide, by decide, rfl, rfl,
   c10_short_token_heterozygote "0" ".,." "0" "0" none hemiRefCall
     (by decide) (by decide) rfl⟩

/-- Success condition of the guarded `ref_depth` conversion: vacuous unless
`AD[0]` is a digit, in which case the first comma-element must be an integer
literal. -/
def adRefOkB (AD : String) : Bool :=
  if (AD.data.headD ' ').isDigit then
    (pyInt? ((pySplit AD ',').headD "")).isSome
  else true

/-- Success condition of the guarded `alt_depth` conversion: vacuous unless
`AD[2]` is a digit, in which case a second comma-element must exist and be an
integer literal. -/
def adAltOkB (AD : String) : Bool :=
  if ((AD.data.get? 2).getD ' ').isDigit then
    match (pySplit AD ',').get? 1 with
    | none => false
    | some p => (pyInt? p).isSome
  else true

/-- Success condition of the depth-token handling: the token is nonempty,
and when it is longer than 2 characters both guarded conversions succeed. -/
def adOkB (AD : String) : Bool :=
  if AD.data = [] then false
  else if 2 < AD.length then adRefOkB AD && adAltOkB AD
  else true

/-- Success condition of the likelihood-token handling: vacuous when the
token is absent or empty; otherwise every comma-element must be an integer
literal. -/
def plOkB : Option String → Bool
  | none => true
  | some pl =>
      if pl = "" then true
      else (pySplit pl ',').all (fun s => (pyInt? s).isSome)

theorem exOk_adRefConv (AD : String) : exOk (adRefConv AD) = adRefOkB AD := by
  unfold adRefConv adRefOkB
  split
  · cases hp : pyInt? ((pySplit AD ',').headD "") <;> simp [exOk, hp]
  · rfl

theorem exOk_adAltConv (AD : String) : exOk (adAltConv AD) = adAltOkB AD := by
  unfold adAltConv adAltOkB
  split
  · cases hq : (pySplit AD ',').get? 1 with
    | none => simp [exOk, hq]
    | some p => cases hp : pyInt? p <;> simp [exOk, hq, hp]
  · rfl

theorem exOk_adStage (AD : String) : exOk (adStage AD) = adOkB AD := by
  unfold adStage adOkB
  split
  · rfl
  · split
    · rw [← exOk_adRefConv, ← exOk_adAltConv]
      cases hR : adRefConv AD with
      | error e => simp [exOk]
      | ok rd' => cases hA : adAltConv AD <;> simp [exOk]
    · rfl

theorem exOk_plParse (l : List String) :
    exOk (plParse l) = l.all (fun s => (pyInt? s).isSome) := by
  induction l with
  | nil => rfl
  | cons s rest ih =>
      unfold plParse
      cases hp : pyInt? s with
      | none => simp [exOk, hp]
      | some n =>
          rw [List.all_cons, ← ih]
          cases hr : plParse rest <;> simp [exOk, hp]

theorem exOk_plStage (PL : Option String) : exOk (plStage PL) = plOkB PL := by
  cases PL with
  | none => rfl
  | some pl =>
      show exOk (if pl = "" then Except.ok [] else plParse (pySplit pl ',')) =
        (if pl = "" then true else (pySplit pl ',').all fun s => (pyInt? s).isSome)
      by_cases h : pl = ""
      · rw [if_pos h, if_pos h]; rfl
      · rw [if_neg h, if_neg h]; exact exOk_plParse _

/-- C2 counterexample: the decoder raises for the non-numeric likelihood
token `"x"` — the claim that decoding succeeds for every non-numeric PL
token is false (the list comprehension `[int(score) for score in
PL.split(',')]` has no exception handler). -/
theorem c2_counterexample_pl_raises :
    genotypeInit "0/1" ".,." "0" "0" (some "x") =
      .error (.valueError "invalid literal for int") := rfl

/-- C2 (amended): malformed depth-of-coverage (`DP`) and quality (`GQ`)
tokens never cause the decoder to raise — those fields are simply left
unset — and the constructor completes exactly when the depth (`AD`) token
passes its character-guarded conversions (it is nonempty, and when longer
than 2 characters each digit-guarded comma-element parses as an integer,
with a second element present when demanded) and every comma-element of a
present, nonempty likelihood (`PL`) token parses as an integer; in
particular a non-numeric PL element always raises. -/
theorem c2_decoder_error_characterization
    (GT AD DP GQ : String) (PL : Option String) :
    exOk (genotypeInit GT AD DP GQ PL) = (adOkB AD && plOkB PL) := by
  rw [← exOk_adStage, ← exOk_plStage]
  unfold genotypeInit
  cases hA : adStage AD with
  | error e => simp [exOk]
  | ok rdad =>
      cases hP : plStage PL with
      | error e => simp [exOk]
      | ok pls => simp [exOk]

/-- Inversion of a successful guarded `ref_depth` conversion. -/
theorem adRefConv_ok {AD : String} {r : StrOrInt} (h : adRefConv AD = .ok r) :
    r = (if (AD.data.headD ' ').isDigit then
           StrOrInt.int ((pyInt? ((pySplit AD ',').headD "")).getD 0)
         else .str (String.singleton (AD.data.headD ' '))) := by
  unfold adRefConv at h
  split at h
  · next hdigit =>
      split at h
      · next n heq =>
          cases h
          rw [if_pos hdigit, heq]
          rfl
      · cases h
  · next hdigit =>
      cases h
      rw [if_neg hdigit]

/-- Inversion of a successful guarded `alt_depth` conversion. -/
theorem adAltConv_ok {AD : String} {a : StrOrInt} (h : adAltConv AD = .ok a) :
    a = (if ((AD.data.get? 2).getD ' ').isDigit then
           StrOrInt.int ((pyInt? (((pySplit AD ',').get? 1).getD "")).getD 0)
         else .str (String.singleton (AD.data.getLastD ' '))) := by
  unfold adAltConv at h
  split at h
  · next hdigit =>
      split at h
      · cases h
      · next p heq =>
          split at h
          · next n heq2 =>
              cases h
              rw [if_pos hdigit, heq]
              simp [heq2]
          · cases h
  · next hdigit =>
      cases h
      rw [if_neg hdigit]

/-- Inversion of the whole depth stage: both depth fields as functions of
the token. -/
theorem adStage_ok_depths {AD : String} {r a : StrOrInt}
    (h : adStage AD = .ok (r, a)) :
    r = (if 2 < AD.length ∧ (AD.data.headD ' ').isDigit = true then
           StrOrInt.int ((pyInt? ((pySplit AD ',').headD "")).getD 0)
         else .str (String.singleton (AD.data.headD ' '))) ∧
    a = (if 2 < AD.length ∧ ((AD.data.get? 2).getD ' ').isDigit = true then
           StrOrInt.int ((pyInt? (((pySplit AD ',').get? 1).getD "")).getD 0)
         else .str (String.singleton (AD.data.getLastD ' '))) := by
  unfold adStage at h
  split at h
  · cases h
  · split at h
    · next hlen =>
        cases hR : adRefConv AD with
        | error e => rw [hR] at h; cases h
        | ok rd' =>
            rw [hR] at h
            cases hA : adAltConv AD with
            | error e => rw [hA] at h; cases h
            | ok ad' =>
                rw [hA] at h
                cases h
                constructor
                · rw [adRefConv_ok hR]
                  by_cases hd : (AD.data.headD ' ').isDigit = true
                  · rw [if_pos hd, if_pos ⟨hlen, hd⟩]
                  · rw [if_neg hd, if_neg (fun hc => hd hc.2)]
                · rw [adAltConv_ok hA]
                  by_cases hd : ((AD.data.get? 2).getD ' ').isDigit = true
                  · rw [if_pos hd, if_pos ⟨hlen, hd⟩]
                  · rw [if_neg hd, if_neg (fun hc => hd hc.2)]
    · next hlen =>
        cases h
        constructor
        · rw [if_neg (fun hc => hlen hc.1)]
        · rw [if_neg (fun hc => hlen hc.1)]

/-- The object constructed by `Genotype('0/1', '10,20', '0', '0', None)`:
`ref_depth` is converted to the integer 10, but `alt_depth` stays the last
character `'0'` of the token, because the guard inspects `AD[2]` (the comma)
rather than the second comma-element. -/
def depthCall1020 : Genotype :=
  { heterozygote := true, homo_alt := false, homo_ref := false
  , has_variant := true, genotyped := true, phased := false
  , allele_1 := "0", allele_2 := "1", genotype := "0/1"
  , ref_depth := .int 10, alt_depth := .str "0"
  , depth_of_coverage := some 0, genotype_quality := some "0"
  , phred_likelihoods := [] }

/-- C3 counterexample: decoding the AD token `"10,20"` yields
`ref_depth = 10` but `alt_depth = "0"` (the token's last character), not the
integer 20 that the claim's example promises. -/
theorem c3_counterexample_ad_char_checks :
    genotypeInit "0/1" "10,20" "0" "0" none = .ok depthCall1020 ∧
    depthCall1020.ref_depth = .int 10 ∧
    depthCall1020.alt_depth = .str "0" ∧
    depthCall1020.alt_depth ≠ .int 20 :=
  ⟨rfl, rfl, rfl, by decide⟩

/-- C3 (amended): the decoder initialises `ref_depth`/`alt_depth` to the
first/last character of the AD token; when the token is longer than 2
characters, `ref_depth` becomes the integer value of the first comma-element
exactly when the token's first character is a digit, and `alt_depth` becomes
the integer value of the second comma-element exactly when the token's third
character is a digit — so `"10,20"` yields `ref_depth = 10` but
`alt_depth = "0"`. -/
theorem c3_depth_fields_amended
    (GT AD DP GQ : String) (PL : Option String) (g : Genotype)
    (h : genotypeInit GT AD DP GQ PL = .ok g) :
    g.ref_depth = (if 2 < AD.length ∧ (AD.data.headD ' ').isDigit = true then
        StrOrInt.int ((pyInt? ((pySplit AD ',').headD "")).getD 0)
      else .str (String.singleton (AD.data.headD ' '))) ∧
    g.alt_depth =
      (if 2 < AD.length ∧ ((AD.data.get? 2).getD ' ').isDigit = true then
        StrOrInt.int ((pyInt? (((pySplit AD ',').get? 1).getD "")).getD 0)
      else .str (String.singleton (AD.data.getLastD ' '))) := by
  obtain ⟨hA, -, -, -, -, -, -, -, -⟩ := genotypeInit_fields h
  exact adStage_ok_depths hA

/-- The object constructed by `Genotype('0/1', '1,2', '5', '7', None)`. -/
def depthCall12 : Genotype :=
  { heterozygote := true, homo_alt := false, homo_ref := false
  , has_variant := true, genotyped := true, phased := false
  , allele_1 := "0", allele_2 := "1", genotype := "0/1"
  , ref_depth := .int 1, alt_depth := .int 2
  , depth_of_coverage := some 5, genotype_quality := some "7"
  , phred_likelihoods := [] }

/-- C3 witness: the amended theorem applied to the decode of the AD token
`"1,2"`, where both guards fire and both depths are converted. -/
theorem c3_depth_fields_amended_witness :
    genotypeInit "0/1" "1,2" "5" "7" none = .ok depthCall12 ∧
    depthCall12.ref_depth = .int 1 ∧ depthCall12.alt_depth = .int 2 :=
  ⟨rfl,
   ((c3_depth_fields_amended "0/1" "1,2" "5" "7" none depthCall12 rfl).1).trans
     (by decide),
   ((c3_depth_fields_amended "0/1" "1,2" "5" "7" none depthCall12 rfl).2).trans
     (by decide)⟩

/-! ### Properties of the stream driver and the allele splitter -/

/-- C4 counterexample: the per-line body of the iterator applied to a
3-column data line yields no record and raises no error — no StructuralError
is surfaced, contradicting the claim (the `len(line.split('\t')) >= 8` guard
silently skips the line). -/
theorem c4_counterexample_short_line_skipped :
    processLine "1\t2\t3" none false = ([], none) := rfl

/-- C4 (amended): every data line with fewer than 8 tab-separated columns is
silently skipped by the per-line body of `VCFParser.__iter__`: no record is
emitted for it and no error is raised, whatever the metadata and the
splitting flag. -/
theorem c4_short_line_silently_skipped
    (line : String) (md : Option Metadata) (splitFlag : Bool)
    (h : (pySplit line '\t').length < 8) :
    processLine line md splitFlag = ([], none) := by
  unfold processLine
  rw [if_neg (by omega)]

/-- C4 witness: the amended theorem applied to a concrete 2-column line. -/
theorem c4_short_line_silently_skipped_witness :
    (pySplit "a\tb" '\t').length < 8 ∧
    processLine "a\tb" none true = ([], none) :=
  ⟨by decide, c4_short_line_silently_skipped "a\tb" none true (by decide)⟩

/-- C5: iterating the stream driver does not yield one record per data line —
the first loop iteration runs the `self.beginning` block, whose expression
`format_variant(next_line, ...)` names the undefined `next_line` (the
attribute is `self.next_line`), so the generator raises `NameError` before
yielding anything, even for a well-formed 8-column line with splitting
disabled. -/
theorem c5_iter_raises_name_error :
    iterLines true none false ["1\t2\t3\t4\t5\t6\t7\t8"] =
      ([], some (.nameError "next_line")) := rfl

/-- A two-alternative record with no annotations and no samples. -/
def refSplitRecord : VariantDict :=
  { CHROM := "1", POS := "100", ID := "rs1", REF := "T", ALT := "A,G"
  , QUAL := ".", FILTER := "PASS", FORMAT := none, INFO := ""
  , info_dict := [], vep_info := [], genotypes := [], sample_cols := []
  , variant_id := none }

/-- C6: `split_variants` on a two-alternative record yields no record at
all — the unconditional `variant['INFO'] = build_info_string(info_dict)`
evaluates the undefined name `build_info_string` and raises `NameError`
before the first `yield`, instead of producing the claimed K records. -/
theorem c6_split_crashes_before_yield :
    splitVariantsRun refSplitRecord none =
      ([], some (.nameError "build_info_string")) := rfl

/-- A two-alternative record carrying an `A`-cardinality annotation with one
value per alternative allele. -/
def aCardRecord : VariantDict :=
  { CHROM := "1", POS := "100", ID := "rs1", REF := "T", ALT := "A,G"
  , QUAL := ".", FILTER := "PASS", FORMAT := none, INFO := "AC=10,20"
  , info_dict := [("AC", ["10", "20"])], vep_info := [], genotypes := []
  , sample_cols := [], variant_id := none }

/-- A header schema declaring `AC` with `A` cardinality. -/
def aCardMeta : Metadata :=
  { extra_info := [("AC", .str "A")], individuals := [], vep_columns := [] }

/-- C7: the INFO loop itself selects the i-th entry of an `A`-cardinality
value list as the claim describes, but no split record ever receives it —
`split_variants` raises `NameError` on the undefined `build_info_string`
before yielding. -/
theorem c7_split_crashes_with_a_cardinality :
    splitInfoLoop aCardRecord (some aCardMeta) "A" 0 aCardRecord.info_dict
        ([], []) = .ok ([("AC", ["10"])], []) ∧
    splitInfoLoop aCardRecord (some aCardMeta) "G" 1 aCardRecord.info_dict
        ([], []) = .ok ([("AC", ["20"])], []) ∧
    splitVariantsRun aCardRecord (some aCardMeta) =
      ([], some (.nameError "build_info_string")) :=
  ⟨rfl, rfl, rfl⟩

/-- A single-alternative record carrying an annotation key that the schema
does not declare. -/
def missingKeyRecord : VariantDict :=
  { CHROM := "1", POS := "100", ID := "rs1", REF := "T", ALT := "A"
  , QUAL := ".", FILTER := "PASS", FORMAT := none, INFO := "XX=1"
  , info_dict := [("XX", ["1"])], vep_info := [], genotypes := []
  , sample_cols := [], variant_id := none }

/-- A header schema with an empty cardinality table. -/
def emptyMeta : Metadata :=
  { extra_info := [], individuals := [], vep_columns := [] }

/-- C8: an annotation key missing from the schema aborts the split with an
error before any record is yielded and is never given a default
cardinality — but the error that propagates is the `NameError` raised by
`logger.error(...)` inside the `except KeyError:` handler (`logger` is never
assigned in the module), not the re-raised KeyError/SchemaInconsistency the
claim names. -/
theorem c8_missing_schema_key_raises :
    splitVariantsRun missingKeyRecord (some emptyMeta) =
      ([], some (.nameError "logger")) ∧
    (.nameError "logger" : PyErr) ≠ .keyError "XX" :=
  ⟨rfl, by decide⟩

/-- The object carried for sample `ind1` in the multiallelic source record:
the decode of `"1/2"` with default sub-field tokens. -/
def sampleCall12 : Genotype :=
  { heterozygote := true, homo_alt := false, homo_ref := false
  , has_variant := true, genotyped := true, phased := false
  , allele_1 := "1", allele_2 := "2", genotype := "1/2"
  , ref_depth := .str ".", alt_depth := .str "."
  , depth_of_coverage := some 0, genotype_quality := some "0"
  , phred_likelihoods := [] }

/-- A two-alternative record with one sample whose genotype token is
`"1/2"`. -/
def gtSplitRecord : VariantDict :=
  { CHROM := "1", POS := "100", ID := "rs1", REF := "T", ALT := "A,G"
  , QUAL := ".", FILTER := "PASS", FORMAT := some "GT", INFO := ""
  , info_dict := [], vep_info := [], genotypes := [("ind1", sampleCall12)]
  , sample_cols := [("ind1", "1/2")], variant_id := none }

/-- C9: no sample token is ever re-encoded and re-decoded — `split_variants`
raises `NameError` on the undefined `build_info_string` before reaching the
genotype loop (whose own decode step would then evaluate the undefined names
`Genotype` and `gt_format`); moreover, the spec-modelled re-encoding itself
maps `"1/2"` to `"1/0"` for allele index 0 (allele index i+1 = 1 maps to 1),
not to the `"0/0"` that the claim's example asserts. -/
theorem c9_split_crashes_before_genotype_rederivation :
    splitVariantsRun gtSplitRecord none =
      ([], some (.nameError "build_info_string")) ∧
    split_genotype "1/2" "GT" 0 = "1/0" ∧
    split_genotype "1/2" "GT" 1 = "0/1" :=
  ⟨rfl, rfl, rfl⟩
